import Mathlib

/-!
Verification development for the stock-kd-bot repository.

Shallow embedding of the decision logic of `src/main.py` (`check_kd_signal`,
`check_market_trend`) and of the backtest simulator of `src/backtest.py`
(`run_backtest`).  Machine floats are modelled as rationals; the external
collaborators (yfinance download, pandas-ta indicator computation) are
modelled as inputs: each embedded function takes an environment record
holding the outcomes of the external calls exactly as the Python code
observes them (a `None` result, an empty frame, the numeric values read).
The branching, the default substitutions (`.get(col, default)`,
`x if y is not None else c`) and the state updates are transcribed from the
source line by line.
-/

/-- Trading signal as produced by `check_kd_signal` in `src/main.py`
(`'BUY'`, `'SELL'`, `'HOLD'`; Python `None` is modelled by `Option`). -/
inductive Signal where
  | buy
  | sell
  | hold
deriving DecidableEq

/-- The four stochastic-oscillator reads of `check_kd_signal`
(`k_today`, `d_today`, `k_prev`, `d_prev`, lines 110-113 of src/main.py). -/
structure StochVals where
  k : ℚ
  d : ℚ
  kPrev : ℚ
  dPrev : ℚ
deriving DecidableEq

/-- Environment of one `check_kd_signal` call: the outcomes of the external
calls (yfinance download, pandas-ta indicators) as the Python body observes
them.  `raises = true` models an exception anywhere in the `try` body;
`stoch? = none` models `stoch is None or stoch.empty`; `sma60? = none` and
`rsi? = none` model the respective pandas-ta results being `None`;
`volSma? = none` models `vol_sma is None or vol_sma.empty`. -/
structure KDEnv where
  raises : Bool
  dfEmpty : Bool
  dfLen : ℕ
  stoch? : Option StochVals
  sma60? : Option ℚ
  rsi? : Option ℚ
  close : ℚ
  hasVolume : Bool
  volEmpty : Bool
  volSma? : Option ℚ
  volToday : ℚ
deriving DecidableEq

/-- Embedding of `check_kd_signal` (src/main.py lines 68-143).  Returns the
5-tuple `(signal, k_today, d_today, current_price, vol_ratio)`.  All failure
paths return the sentinel `(None, 0, 0, 0, 0.0)` exactly as in the source
(lines 82, 106, 143). -/
def check_kd_signal (e : KDEnv) : Option Signal × ℚ × ℚ × ℚ × ℚ :=
  if e.raises then (none, 0, 0, 0, 0)
  else if e.dfEmpty ∨ e.dfLen < 60 then (none, 0, 0, 0, 0)
  else
    let vol_ratio : ℚ :=
      if e.hasVolume then
        match e.volSma? with
        | some vol_avg =>
            if e.volEmpty = false then
              (if 0 < vol_avg then e.volToday / vol_avg else 1)
            else 1
        | none => 1
      else 1
    match e.stoch? with
    | none => (none, 0, 0, 0, 0)
    | some st =>
      let ma60_val : ℚ := e.sma60?.getD 0
      let rsi_val : ℚ := e.rsi?.getD 50
      let signal : Option Signal :=
        if st.k < 20 ∧ st.kPrev < st.dPrev ∧ st.k > st.d then
          (if e.close > ma60_val then some Signal.buy else none)
        else if st.k > 80 ∧ st.kPrev > st.dPrev ∧ st.k < st.d then
          (if rsi_val > 70 then some Signal.hold else some Signal.sell)
        else none
      (signal, st.k, st.d, e.close, vol_ratio)

/-- Market regime returned by `check_market_trend` (`'UP'` / `'DOWN'`). -/
inductive Trend where
  | up
  | down
deriving DecidableEq

/-- The rationale string returned by `check_market_trend`, modelled as a
structured value: each constructor is one of the six f-strings of
src/main.py lines 407-436, and the two comparison messages carry the two
numbers interpolated into the string. -/
inductive Rationale where
  | insufficient
  | maFailed
  | maNaN
  | strong (price ma20 : ℚ)
  | weak (price ma20 : ℚ)
  | errored
deriving DecidableEq

/-- Environment of one `check_market_trend` call.  `ma20col = none` models
the `SMA_20` column being absent (`col_name not in df.columns`);
`ma20col = some none` models `pd.isna(ma20)`; `ma20col = some (some m)`
a defined read. -/
structure TrendEnv where
  raises : Bool
  dfEmpty : Bool
  dfLen : ℕ
  ma20col : Option (Option ℚ)
  close : ℚ
deriving DecidableEq

/-- Embedding of `check_market_trend` (src/main.py lines 395-436). -/
def check_market_trend (e : TrendEnv) : Trend × Rationale :=
  if e.raises then (Trend.up, Rationale.errored)
  else if e.dfEmpty ∨ e.dfLen < 20 then (Trend.up, Rationale.insufficient)
  else
    match e.ma20col with
    | none => (Trend.up, Rationale.maFailed)
    | some none => (Trend.up, Rationale.maNaN)
    | some (some ma20) =>
      if e.close > ma20 then (Trend.up, Rationale.strong e.close ma20)
      else (Trend.down, Rationale.weak e.close ma20)

/-- One row of the indicator-annotated frame iterated by `run_backtest`
(src/backtest.py lines 57-72), after `df.dropna()`: the values present are
genuine numbers; an `Option` field is `none` when the whole indicator
column is missing from the frame, which is when `today.get(col, default)`
falls back to its default. -/
structure Row where
  close : ℚ
  k : ℚ
  d : ℚ
  ma60? : Option ℚ
  rsi? : Option ℚ
  hist? : Option ℚ
deriving DecidableEq

/-- `trend_up = price > ma60` with `ma60 = today.get(ma_col, 0)`
(src/backtest.py lines 69, 76). -/
def trend_up (today : Row) : Bool :=
  decide (today.close > today.ma60?.getD 0)

/-- `momentum_up = hist > hist_prev` with the two permissive
`get(hist_col, 0)` reads (src/backtest.py lines 71-72, 79). -/
def momentum_up (prev today : Row) : Bool :=
  decide (today.hist?.getD 0 > prev.hist?.getD 0)

/-- `base_buy = k < 20 and k_prev < d_prev and k > d`
(src/backtest.py line 82). -/
def base_buy (prev today : Row) : Bool :=
  decide (today.k < 20) && decide (prev.k < prev.d) && decide (today.k > today.d)

/-- `buy_signal = base_buy and trend_up and momentum_up`
(src/backtest.py line 83). -/
def buy_signal (prev today : Row) : Bool :=
  base_buy prev today && trend_up today && momentum_up prev today

/-- `base_sell = k > 80 and k_prev > d_prev and k < d`
(src/backtest.py line 87). -/
def base_sell (prev today : Row) : Bool :=
  decide (today.k > 80) && decide (prev.k > prev.d) && decide (today.k < today.d)

/-- `strong_momentum = rsi > 70` with `rsi = today.get(rsi_col, 50)`
(src/backtest.py lines 70, 88). -/
def strong_momentum (today : Row) : Bool :=
  decide (today.rsi?.getD 50 > 70)

/-- `sell_signal = base_sell and not strong_momentum`
(src/backtest.py line 89). -/
def sell_signal (prev today : Row) : Bool :=
  base_sell prev today && !(strong_momentum today)

/-- Simulator state of `run_backtest`: `position` (shares held, an int),
`entry_price`, `cash`, `trades`, `wins`, `total_profit`
(src/backtest.py lines 37-42). -/
structure BTState where
  position : ℤ
  entry_price : ℚ
  cash : ℚ
  trades : ℕ
  wins : ℕ
  total_profit : ℚ
deriving DecidableEq

/-- `START_FUNDS = 100000` (src/backtest.py line 10). -/
def START_FUNDS : ℚ := 100000

/-- Initial simulator state (src/backtest.py lines 37-42). -/
def initState : BTState :=
  { position := 0, entry_price := 0, cash := START_FUNDS,
    trades := 0, wins := 0, total_profit := 0 }

/-- One iteration of the `run_backtest` loop body (src/backtest.py lines
92-112): the Python float floor division `int(cash // price)` is `⌊cash /
price⌋`. -/
def step (prev today : Row) (s : BTState) : BTState :=
  if s.position = 0 ∧ buy_signal prev today then
    let shares : ℤ := ⌊s.cash / today.close⌋
    if 0 < shares then
      { s with cash := s.cash - (shares : ℚ) * today.close,
               position := shares, entry_price := today.close }
    else s
  else if 0 < s.position ∧ sell_signal prev today then
    let revenue : ℚ := (s.position : ℚ) * today.close
    let profit : ℚ := revenue - (s.position : ℚ) * s.entry_price
    { s with cash := s.cash + revenue,
             trades := s.trades + 1,
             wins := s.wins + (if 0 < profit then 1 else 0),
             total_profit := s.total_profit + profit,
             position := 0 }
  else s

/-- The loop `for i in range(1, len(df))` (src/backtest.py line 57): run
`step` over consecutive row pairs, threading the state. -/
def simFrom : Row → List Row → BTState → BTState
  | _, [], s => s
  | prev, t :: rest, s => simFrom t rest (step prev t s)

/-- The list of simulator states after each loop iteration, in order. -/
def simTrace : Row → List Row → BTState → List BTState
  | _, [], _ => []
  | prev, t :: rest, s => step prev t s :: simTrace t rest (step prev t s)

/-- Full simulation of `run_backtest` over a non-empty frame
`first :: rest`, from the initial state. -/
def runSim (first : Row) (rest : List Row) : BTState :=
  simFrom first rest initState

/-- `df.iloc[-1]['Close']` of the non-empty frame `first :: rest`
(src/backtest.py line 115). -/
def lastClose (first : Row) (rest : List Row) : ℚ :=
  (rest.getLastD first).close

/-- `final_value = cash + (position * df.iloc[-1]['Close'])`
(src/backtest.py line 115). -/
def finalValue (first : Row) (rest : List Row) : ℚ :=
  (runSim first rest).cash + ((runSim first rest).position : ℚ) * lastClose first rest

/-- `roi = ((final_value - START_FUNDS) / START_FUNDS) * 100`
(src/backtest.py line 116). -/
def roi (first : Row) (rest : List Row) : ℚ :=
  ((finalValue first rest - START_FUNDS) / START_FUNDS) * 100

/-- `win_rate = (wins / trades * 100) if trades > 0 else 0`
(src/backtest.py line 117). -/
def winRate (s : BTState) : ℚ :=
  if 0 < s.trades then ((s.wins : ℚ) / (s.trades : ℚ)) * 100 else 0

/-- A two-day evaluation with all indicator values defined: the nine
numbers the Signal Classifier of the spec (section 4.3) reads. -/
structure TwoDayEval where
  k : ℚ
  d : ℚ
  kPrev : ℚ
  dPrev : ℚ
  close : ℚ
  ma60 : ℚ
  rsi : ℚ
  hist : ℚ
  histPrev : ℚ
deriving DecidableEq

/-- `oversold := k < 20` (spec section 4.3). -/
def TwoDayEval.oversold (ev : TwoDayEval) : Prop := ev.k < 20

/-- `overbought := k > 80` (spec section 4.3). -/
def TwoDayEval.overbought (ev : TwoDayEval) : Prop := ev.k > 80

/-- `gold_cross := k_prev < d_prev AND k > d` (spec section 4.3). -/
def TwoDayEval.gold_cross (ev : TwoDayEval) : Prop :=
  ev.kPrev < ev.dPrev ∧ ev.k > ev.d

/-- `dead_cross := k_prev > d_prev AND k < d` (spec section 4.3). -/
def TwoDayEval.dead_cross (ev : TwoDayEval) : Prop :=
  ev.kPrev > ev.dPrev ∧ ev.k < ev.d

/-- `trend_up := price > ma60` (spec section 4.3). -/
def TwoDayEval.trendUp (ev : TwoDayEval) : Prop := ev.close > ev.ma60

/-- `momentum_up := hist > hist_prev` (spec section 4.3). -/
def TwoDayEval.momentumUp (ev : TwoDayEval) : Prop := ev.hist > ev.histPrev

/-- `passivated := rsi > 70` (spec section 4.3). -/
def TwoDayEval.passivated (ev : TwoDayEval) : Prop := ev.rsi > 70

instance (ev : TwoDayEval) : Decidable ev.oversold :=
  inferInstanceAs (Decidable (ev.k < 20))

instance (ev : TwoDayEval) : Decidable ev.overbought :=
  inferInstanceAs (Decidable (ev.k > 80))

instance (ev : TwoDayEval) : Decidable ev.gold_cross :=
  inferInstanceAs (Decidable (_ ∧ _))

instance (ev : TwoDayEval) : Decidable ev.dead_cross :=
  inferInstanceAs (Decidable (_ ∧ _))

instance (ev : TwoDayEval) : Decidable ev.trendUp :=
  inferInstanceAs (Decidable (ev.close > ev.ma60))

instance (ev : TwoDayEval) : Decidable ev.momentumUp :=
  inferInstanceAs (Decidable (ev.hist > ev.histPrev))

instance (ev : TwoDayEval) : Decidable ev.passivated :=
  inferInstanceAs (Decidable (ev.rsi > 70))

/-- The yesterday row of the backtest frame carrying the evaluation's
previous-day values (`prev[k_col]`, `prev[d_col]`, `prev.get(hist_col, 0)`
are the only fields of `prev` the loop reads). -/
def prevRowOf (ev : TwoDayEval) : Row :=
  { close := ev.close, k := ev.kPrev, d := ev.dPrev,
    ma60? := some ev.ma60, rsi? := some ev.rsi, hist? := some ev.histPrev }

/-- The today row of the backtest frame carrying the evaluation's
today values. -/
def todayRowOf (ev : TwoDayEval) : Row :=
  { close := ev.close, k := ev.k, d := ev.d,
    ma60? := some ev.ma60, rsi? := some ev.rsi, hist? := some ev.hist }

/-- A `check_kd_signal` environment in which every external call succeeded
and every indicator the live classifier reads is defined, carrying the
evaluation's values.  (The live classifier reads no MACD value, so `hist`
and `histPrev` do not occur here.) -/
def envOf (ev : TwoDayEval) : KDEnv :=
  { raises := false, dfEmpty := false, dfLen := 130,
    stoch? := some { k := ev.k, d := ev.d, kPrev := ev.kPrev, dPrev := ev.dPrev },
    sma60? := some ev.ma60, rsi? := some ev.rsi, close := ev.close,
    hasVolume := false, volEmpty := false, volSma? := none, volToday := 0 }

/-- The signal component of the live classifier on a fully defined
two-day evaluation. -/
def liveSignal (ev : TwoDayEval) : Option Signal :=
  (check_kd_signal (envOf ev)).1

/-- C1, as frozen: both signal paths emit Buy exactly on the conjunction of
the four predicates (oversold, gold cross, trend up, momentum up). -/
def BuyRuleFourPredicateClaim : Prop :=
  ∀ ev : TwoDayEval,
    (buy_signal (prevRowOf ev) (todayRowOf ev) = true ↔
      ev.oversold ∧ ev.gold_cross ∧ ev.trendUp ∧ ev.momentumUp)
    ∧ (liveSignal ev = some Signal.buy ↔
      ev.oversold ∧ ev.gold_cross ∧ ev.trendUp ∧ ev.momentumUp)

/-- C2, as frozen: whenever a required indicator value is undefined, the
classifier produces no signal (fails closed, no numeric default). -/
def FailClosedClaim : Prop :=
  ∀ e : KDEnv,
    e.raises = false → e.dfEmpty = false → 60 ≤ e.dfLen →
    (e.sma60? = none ∨ e.rsi? = none) → (check_kd_signal e).1 = none

/-- A rationale produced on a degraded path: no comparison was made. -/
def Rationale.degraded : Rationale → Prop
  | Rationale.insufficient => True
  | Rationale.maFailed => True
  | Rationale.maNaN => True
  | Rationale.errored => True
  | _ => False

/-- A concrete `check_kd_signal` environment for a normal quiet day on
degenerate data: the download succeeded with 60 bars, the stochastic is
defined (k = d = 0 on both days, so no cross fires), close is 0 and the
day's volume is 0 against a positive 5-day volume average — the normal
return path then produces exactly the error sentinel `(None, 0, 0, 0, 0.0)`. -/
def quietEnv : KDEnv :=
  { raises := false, dfEmpty := false, dfLen := 60,
    stoch? := some { k := 0, d := 0, kPrev := 0, dPrev := 0 },
    sma60? := some 30, rsi? := some 40, close := 0,
    hasVolume := true, volEmpty := false, volSma? := some 5, volToday := 0 }

/-- On a fully defined evaluation the live classifier's decision reduces to
the two-branch rule of src/main.py lines 125-137. -/
theorem liveSignal_eq (ev : TwoDayEval) :
    liveSignal ev =
      if ev.k < 20 ∧ ev.kPrev < ev.dPrev ∧ ev.k > ev.d then
        (if ev.close > ev.ma60 then some Signal.buy else none)
      else if ev.k > 80 ∧ ev.kPrev > ev.dPrev ∧ ev.k < ev.d then
        (if ev.rsi > 70 then some Signal.hold else some Signal.sell)
      else none := rfl

/-- The backtest's inline buy rule, on a fully defined evaluation, is the
conjunction of the four spec predicates. -/
theorem buy_signal_iff (ev : TwoDayEval) :
    buy_signal (prevRowOf ev) (todayRowOf ev) = true ↔
      ev.oversold ∧ ev.gold_cross ∧ ev.trendUp ∧ ev.momentumUp := by
  simp [buy_signal, base_buy, trend_up, momentum_up, prevRowOf, todayRowOf,
    TwoDayEval.oversold, TwoDayEval.gold_cross, TwoDayEval.trendUp,
    TwoDayEval.momentumUp]
  tauto

/-- The backtest's inline sell rule, on a fully defined evaluation, is
overbought-dead-cross without RSI passivation. -/
theorem sell_signal_iff (ev : TwoDayEval) :
    sell_signal (prevRowOf ev) (todayRowOf ev) = true ↔
      ev.overbought ∧ ev.dead_cross ∧ ¬ ev.passivated := by
  simp [sell_signal, base_sell, strong_momentum, prevRowOf, todayRowOf,
    TwoDayEval.overbought, TwoDayEval.dead_cross, TwoDayEval.passivated]
  tauto

/-- A buy signal and a sell signal cannot fire on the same backtest day
(the former needs k below 20, the latter k above 80). -/
theorem buy_sell_exclusive (prev today : Row) :
    buy_signal prev today = true → sell_signal prev today = false := by
  intro hb
  by_contra hs
  rw [Bool.not_eq_false] at hs
  simp only [buy_signal, base_buy, Bool.and_eq_true, decide_eq_true_eq] at hb
  simp only [sell_signal, base_sell, Bool.and_eq_true, decide_eq_true_eq] at hs
  linarith [hb.1.1.1, hs.1.1.1]

/-- When neither guard of the loop body holds, the state is unchanged. -/
theorem step_eq_self (prev today : Row) (s : BTState)
    (hb : ¬ (s.position = 0 ∧ buy_signal prev today = true))
    (hs : ¬ (0 < s.position ∧ sell_signal prev today = true)) :
    step prev today s = s := by
  simp only [step]
  rw [if_neg hb, if_neg hs]

/-- C1 counterexample: on the evaluation k=10, d=5, k_prev=1, d_prev=2,
close=100, ma60=50, rsi=40, hist=0, hist_prev=0 the MACD histogram is not
rising (momentum_up is false), yet the live classifier `check_kd_signal`
emits Buy: it never consults the MACD histogram.  So the four-predicate
rule does not hold for both paths. -/
theorem buy_rule_four_predicate_false : ¬ BuyRuleFourPredicateClaim := by
  intro h
  have h2 := (h ⟨10, 5, 1, 2, 100, 50, 40, 0, 0⟩).2
  have hb : liveSignal ⟨10, 5, 1, 2, 100, 50, 40, 0, 0⟩ = some Signal.buy := by decide
  have hm := (h2.mp hb).2.2.2
  simp only [TwoDayEval.momentumUp] at hm
  exact absurd hm (lt_irrefl 0)

/-- C1 amended: the backtest's inline rule emits Buy iff all four
predicates hold; the live classifier `check_kd_signal` emits Buy iff
oversold, gold cross and trend up hold — it does not consult MACD
momentum (src/main.py computes no MACD at all). -/
theorem buy_rule_characterization :
    ∀ ev : TwoDayEval,
      (buy_signal (prevRowOf ev) (todayRowOf ev) = true ↔
        ev.oversold ∧ ev.gold_cross ∧ ev.trendUp ∧ ev.momentumUp)
      ∧ (liveSignal ev = some Signal.buy ↔
        ev.oversold ∧ ev.gold_cross ∧ ev.trendUp) := by
  intro ev
  refine ⟨buy_signal_iff ev, ?_⟩
  rw [liveSignal_eq]
  simp only [TwoDayEval.oversold, TwoDayEval.gold_cross, TwoDayEval.trendUp]
  split_ifs with h1 h2 h3 h4 <;> simp_all

/-- C2 counterexample: with the SMA-60 result undefined (`sma60 is None`),
stochastic reads k=10, d=5, k_prev=1, d_prev=2 and close=100, the live
classifier substitutes 0 for the missing SMA-60 (src/main.py line 116),
so the trend test becomes 100 > 0 and it emits Buy instead of no signal. -/
theorem fail_closed_claim_false : ¬ FailClosedClaim := by
  intro h
  have := h { raises := false, dfEmpty := false, dfLen := 130,
              stoch? := some { k := 10, d := 5, kPrev := 1, dPrev := 2 },
              sma60? := none, rsi? := some 40, close := 100,
              hasVolume := false, volEmpty := false, volSma? := none, volToday := 0 }
    rfl rfl (by decide) (Or.inl rfl)
  exact absurd this (by decide)

/-- C2 amended: on a day where an indicator value is missing, neither path
fails closed; each substitutes the numeric default of its permissive read
(0 for SMA-60, 50 for RSI in the live classifier, src/main.py lines
116-117; 0 for a missing SMA-60 or MACD-histogram column and 50 for a
missing RSI column in the backtest, src/backtest.py lines 69-72), behaving
exactly as if that default had been read — which the counterexample shows
can turn a missing SMA-60 into a spurious Buy. -/
theorem default_substitution_behavior :
    ∀ (e : KDEnv) (prev today : Row) (s : BTState),
      check_kd_signal { e with sma60? := none }
        = check_kd_signal { e with sma60? := some 0 }
      ∧ check_kd_signal { e with rsi? := none }
        = check_kd_signal { e with rsi? := some 50 }
      ∧ step prev { today with ma60? := none } s
        = step prev { today with ma60? := some 0 } s
      ∧ step prev { today with rsi? := none } s
        = step prev { today with rsi? := some 50 } s
      ∧ step prev { today with hist? := none } s
        = step prev { today with hist? := some 0 } s
      ∧ step { prev with hist? := none } today s
        = step { prev with hist? := some 0 } today s := by
  intro e prev today s
  refine ⟨?_, ?_, ?_, ?_, ?_, ?_⟩ <;>
    simp [check_kd_signal, step, buy_signal, base_buy, trend_up, momentum_up,
      sell_signal, base_sell, strong_momentum]

/-- C3: on every fully defined evaluation with overbought and dead cross,
RSI passivation (> 70) yields Hold from the live classifier and a no-op of
the backtest while long; without passivation the live classifier yields
Sell, the backtest's sell rule fires and a held position is closed; and a
day matching neither a Buy emission nor overbought-dead-cross emits no
signal and moves no backtest state. -/
theorem dead_cross_branch_correct :
    ∀ ev : TwoDayEval,
      (ev.overbought → ev.dead_cross →
        ((ev.passivated → liveSignal ev = some Signal.hold
            ∧ ∀ s : BTState, step (prevRowOf ev) (todayRowOf ev) s = s)
         ∧ (¬ ev.passivated → liveSignal ev = some Signal.sell
            ∧ sell_signal (prevRowOf ev) (todayRowOf ev) = true
            ∧ ∀ s : BTState, 0 < s.position →
                (step (prevRowOf ev) (todayRowOf ev) s).position = 0)))
      ∧ (¬ (ev.oversold ∧ ev.gold_cross ∧ ev.trendUp) →
          ¬ (ev.overbought ∧ ev.dead_cross) → liveSignal ev = none)
      ∧ (¬ (ev.oversold ∧ ev.gold_cross ∧ ev.trendUp ∧ ev.momentumUp) →
          ¬ (ev.overbought ∧ ev.dead_cross) →
          ∀ s : BTState, step (prevRowOf ev) (todayRowOf ev) s = s) := by
  intro ev
  have hko : ev.overbought → ¬ ev.oversold := by
    simp only [TwoDayEval.overbought, TwoDayEval.oversold]
    intro h1 h2; linarith
  refine ⟨fun hob hdc => ⟨fun hp => ⟨?_, fun s => ?_⟩, fun hp => ⟨?_, ?_, fun s hs => ?_⟩⟩,
    fun hnb hns => ?_, fun hnb hns s => ?_⟩
  · have hp' : ev.rsi > 70 := hp
    rw [liveSignal_eq, if_neg (fun hc => hko hob hc.1),
      if_pos ⟨hob, hdc.1, hdc.2⟩, if_pos hp']
  · refine step_eq_self _ _ _ (fun hc => ?_) (fun hc => ?_)
    · exact hko hob ((buy_signal_iff ev).mp hc.2).1
    · exact (((sell_signal_iff ev).mp hc.2).2.2) hp
  · have hp' : ¬ ev.rsi > 70 := hp
    rw [liveSignal_eq, if_neg (fun hc => hko hob hc.1),
      if_pos ⟨hob, hdc.1, hdc.2⟩, if_neg hp']
  · exact (sell_signal_iff ev).mpr ⟨hob, hdc, hp⟩
  · have hsell : sell_signal (prevRowOf ev) (todayRowOf ev) = true :=
      (sell_signal_iff ev).mpr ⟨hob, hdc, hp⟩
    have hbuy : ¬ (s.position = 0 ∧ buy_signal (prevRowOf ev) (todayRowOf ev) = true) := by
      rintro ⟨h0, _⟩; rw [h0] at hs; exact lt_irrefl 0 hs
    simp only [step]
    rw [if_neg hbuy, if_pos ⟨hs, hsell⟩]
  · rw [liveSignal_eq]
    simp only [TwoDayEval.oversold, TwoDayEval.gold_cross, TwoDayEval.trendUp,
      TwoDayEval.overbought, TwoDayEval.dead_cross] at hnb hns ⊢
    split_ifs with h1 h2 <;> tauto
  · refine step_eq_self _ _ _ (fun hc => ?_) (fun hc => ?_)
    · exact hnb ((buy_signal_iff ev).mp hc.2)
    · have := (sell_signal_iff ev).mp hc.2
      exact hns ⟨this.1, this.2.1⟩

/-- One loop iteration preserves non-negative cash and a non-negative
share count, provided that day's close is positive: on a buy,
`shares = ⌊cash / price⌋` satisfies `shares * price ≤ cash`, so the
debit cannot drive cash negative; on a sell only money comes in. -/
theorem step_inv (prev today : Row) (s : BTState) (hc : 0 < today.close)
    (h1 : 0 ≤ s.cash) (h2 : 0 ≤ s.position) :
    0 ≤ (step prev today s).cash ∧ 0 ≤ (step prev today s).position := by
  by_cases hbuy : s.position = 0 ∧ buy_signal prev today = true
  · by_cases hsh : (0 : ℤ) < ⌊s.cash / today.close⌋
    · simp only [step, if_pos hbuy, if_pos hsh]
      constructor
      · show 0 ≤ s.cash - (⌊s.cash / today.close⌋ : ℚ) * today.close
        have hfl : (⌊s.cash / today.close⌋ : ℚ) ≤ s.cash / today.close :=
          Int.floor_le _
        have hmul : (⌊s.cash / today.close⌋ : ℚ) * today.close ≤ s.cash := by
          calc (⌊s.cash / today.close⌋ : ℚ) * today.close
              ≤ (s.cash / today.close) * today.close :=
                mul_le_mul_of_nonneg_right hfl hc.le
            _ = s.cash := div_mul_cancel₀ _ (ne_of_gt hc)
        linarith
      · show (0 : ℤ) ≤ ⌊s.cash / today.close⌋
        exact le_of_lt hsh
    · simp only [step, if_pos hbuy, if_neg hsh]
      exact ⟨h1, h2⟩
  · by_cases hsell : 0 < s.position ∧ sell_signal prev today = true
    · simp only [step, if_neg hbuy, if_pos hsell]
      constructor
      · show 0 ≤ s.cash + (s.position : ℚ) * today.close
        have : (0 : ℚ) ≤ (s.position : ℚ) * today.close :=
          mul_nonneg (by exact_mod_cast h2) hc.le
        linarith
      · exact le_refl 0
    · simp only [step, if_neg hbuy, if_neg hsell]
      exact ⟨h1, h2⟩

/-- The invariant holds at every state of the simulation trace. -/
theorem simTrace_inv (rest : List Row) :
    ∀ (prev : Row) (s : BTState),
      (∀ r ∈ rest, 0 < r.close) → 0 ≤ s.cash → 0 ≤ s.position →
      ∀ x ∈ simTrace prev rest s, 0 ≤ x.cash ∧ 0 ≤ x.position := by
  induction rest with
  | nil => intro prev s _ _ _ x hx; simp [simTrace] at hx
  | cons t rest ih =>
    intro prev s hc h1 h2 x hx
    have hstep := step_inv prev t s (hc t (by simp)) h1 h2
    simp only [simTrace, List.mem_cons] at hx
    rcases hx with rfl | hx
    · exact hstep
    · exact ih t (step prev t s) (fun r hr => hc r (by simp [hr]))
        hstep.1 hstep.2 x hx

/-- C4: at every step of a backtest over a series of positive closes, cash
is non-negative and the (integer) share count is non-negative — no
negative cash, no fractional shares, no short positions; in particular a
buy of `⌊cash / price⌋` shares never drives cash negative. -/
theorem backtest_state_invariant (first : Row) (rest : List Row)
    (hc : ∀ r ∈ first :: rest, 0 < r.close) :
    ∀ x ∈ simTrace first rest initState, 0 ≤ x.cash ∧ 0 ≤ x.position := by
  refine simTrace_inv rest first initState
    (fun r hr => hc r (by simp [hr])) ?_ ?_
  · show (0 : ℚ) ≤ 100000
    norm_num
  · exact le_refl 0

/-- C4 witness: the invariant applied to a concrete two-day series. -/
theorem backtest_state_invariant_witness :
    0 ≤ (step { close := 5, k := 50, d := 50, ma60? := some 4, rsi? := some 50,
                hist? := some 0 }
          { close := 6, k := 50, d := 50, ma60? := some 4, rsi? := some 50,
            hist? := some 0 } initState).cash
    ∧ 0 ≤ (step { close := 5, k := 50, d := 50, ma60? := some 4, rsi? := some 50,
                  hist? := some 0 }
            { close := 6, k := 50, d := 50, ma60? := some 4, rsi? := some 50,
              hist? := some 0 } initState).position :=
  backtest_state_invariant
    { close := 5, k := 50, d := 50, ma60? := some 4, rsi? := some 50, hist? := some 0 }
    [{ close := 6, k := 50, d := 50, ma60? := some 4, rsi? := some 50, hist? := some 0 }]
    (by decide) _ (by simp [simTrace])

/-- C5: a Buy signal while a position is open changes no state, and a Sell
or Hold signal (overbought dead-cross day, with or without passivation)
while flat changes no state — the simulator never opens a second position
and never sells short. -/
theorem single_position_no_op :
    ∀ (prev today : Row) (s : BTState),
      (0 < s.position → buy_signal prev today = true → step prev today s = s)
      ∧ (s.position = 0 → sell_signal prev today = true → step prev today s = s)
      ∧ (s.position = 0 → base_sell prev today = true →
          strong_momentum today = true → step prev today s = s) := by
  intro prev today s
  refine ⟨fun hpos hb => ?_, fun h0 hs => ?_, fun h0 hbs hsm => ?_⟩
  · refine step_eq_self _ _ _ (fun hc => ?_) (fun hc => ?_)
    · rw [hc.1] at hpos; exact lt_irrefl 0 hpos
    · rw [buy_sell_exclusive prev today hb] at hc; exact Bool.false_ne_true hc.2
  · refine step_eq_self _ _ _ (fun hc => ?_) (fun hc => ?_)
    · simp only [sell_signal, base_sell, Bool.and_eq_true, decide_eq_true_eq] at hs
      simp only [buy_signal, base_buy, Bool.and_eq_true, decide_eq_true_eq] at hc
      linarith [hs.1.1.1, hc.2.1.1.1]
    · rw [h0] at hc; exact lt_irrefl 0 hc.1
  · refine step_eq_self _ _ _ (fun hc => ?_) (fun hc => ?_)
    · simp only [base_sell, Bool.and_eq_true, decide_eq_true_eq] at hbs
      simp only [buy_signal, base_buy, Bool.and_eq_true, decide_eq_true_eq] at hc
      linarith [hbs.1.1, hc.2.1.1.1]
    · rw [h0] at hc; exact lt_irrefl 0 hc.1

/-- C5 witness: concrete no-op transitions — a buy-signal day while one
share is held, and a sell-signal day while flat, both leave the state
unchanged. -/
theorem single_position_no_op_witness :
    step { close := 5, k := 10, d := 20, ma60? := some 4, rsi? := some 50, hist? := some 0 }
      { close := 6, k := 15, d := 12, ma60? := some 4, rsi? := some 50, hist? := some 1 }
      { position := 1, entry_price := 5, cash := 10, trades := 0, wins := 0,
        total_profit := 0 }
      = { position := 1, entry_price := 5, cash := 10, trades := 0, wins := 0,
          total_profit := 0 }
    ∧ step { close := 5, k := 90, d := 85, ma60? := some 4, rsi? := some 50, hist? := some 0 }
        { close := 6, k := 85, d := 88, ma60? := some 4, rsi? := some 50, hist? := some 0 }
        initState
      = initState :=
  ⟨(single_position_no_op _ _ _).1 (by decide) (by decide),
   (single_position_no_op _ _ _).2.1 rfl (by decide)⟩

/-- C6: a Buy signal while flat buys exactly `⌊cash / price⌋` shares: if
that floor is 0 the state is unchanged (stay flat, no trade recorded);
otherwise cash is debited by `shares * price`, the position becomes
`shares`, the fill price is recorded as entry price, and the trade and win
counters and accumulated profit are untouched. -/
theorem entry_fill_semantics :
    ∀ (prev today : Row) (s : BTState),
      s.position = 0 → buy_signal prev today = true →
      ((⌊s.cash / today.close⌋ = 0 → step prev today s = s)
       ∧ (0 < ⌊s.cash / today.close⌋ →
          step prev today s =
            { s with cash := s.cash - (⌊s.cash / today.close⌋ : ℚ) * today.close,
                     position := ⌊s.cash / today.close⌋,
                     entry_price := today.close })) := by
  intro prev today s h0 hb
  constructor
  · intro hz
    simp only [step, if_pos (And.intro h0 hb)]
    rw [if_neg]
    rw [hz]
    exact lt_irrefl 0
  · intro hpos
    simp only [step, if_pos (And.intro h0 hb), if_pos hpos]

/-- C6 witness: while flat with cash 100000 and a buy-signal day, the
theorem applies; at close 40000 the floor is 2 and the fill debits 80000. -/
theorem entry_fill_semantics_witness :
    step { close := 39000, k := 10, d := 20, ma60? := some 30000, rsi? := some 50,
           hist? := some 0 }
      { close := 40000, k := 15, d := 12, ma60? := some 30000, rsi? := some 50,
        hist? := some 1 } initState =
      { initState with
          cash := initState.cash - (⌊initState.cash / (40000 : ℚ)⌋ : ℚ) * 40000,
          position := ⌊initState.cash / (40000 : ℚ)⌋,
          entry_price := 40000 } :=
  (entry_fill_semantics _ _ initState rfl (by decide)).2 (by
    show (0 : ℤ) < ⌊(100000 : ℚ) / 40000⌋
    rw [show ((100000 : ℚ) / 40000) = 5 / 2 by norm_num]
    rw [show ((5 : ℚ) / 2) = (5 : ℤ) / (2 : ℕ) by push_cast; ring]
    rw [Rat.floor_intCast_div_natCast]
    decide)

/-- C7: a Sell signal while long liquidates the whole position at the
day's close: cash grows by `shares * price`, the trade count grows by
exactly 1, the win count grows by 1 exactly when the realized profit
`shares * (exit - entry)` is positive (and is unchanged otherwise), the
realized profit accumulates into total profit, and the position returns
to 0. -/
theorem exit_fill_semantics :
    ∀ (prev today : Row) (s : BTState),
      0 < s.position → sell_signal prev today = true →
      ((step prev today s).cash = s.cash + (s.position : ℚ) * today.close
       ∧ (step prev today s).trades = s.trades + 1
       ∧ ((step prev today s).wins = s.wins + 1 ↔
            0 < (s.position : ℚ) * (today.close - s.entry_price))
       ∧ ((step prev today s).wins = s.wins ↔
            ¬ 0 < (s.position : ℚ) * (today.close - s.entry_price))
       ∧ (step prev today s).total_profit =
            s.total_profit + (s.position : ℚ) * (today.close - s.entry_price)
       ∧ (step prev today s).position = 0) := by
  intro prev today s hpos hs
  have hnb : ¬ (s.position = 0 ∧ buy_signal prev today = true) := by
    rintro ⟨h0, _⟩; rw [h0] at hpos; exact lt_irrefl 0 hpos
  have hpr : (s.position : ℚ) * today.close - (s.position : ℚ) * s.entry_price
      = (s.position : ℚ) * (today.close - s.entry_price) := by ring
  have hstep : step prev today s =
      { s with cash := s.cash + (s.position : ℚ) * today.close,
               trades := s.trades + 1,
               wins := s.wins + (if 0 < (s.position : ℚ) * today.close -
                  (s.position : ℚ) * s.entry_price then 1 else 0),
               total_profit := s.total_profit + ((s.position : ℚ) * today.close -
                  (s.position : ℚ) * s.entry_price),
               position := 0 } := by
    simp only [step, if_neg hnb, if_pos (And.intro hpos hs)]
  rw [hstep]
  refine ⟨rfl, rfl, ?_, ?_, ?_, rfl⟩
  · show s.wins + (if 0 < (s.position : ℚ) * today.close -
        (s.position : ℚ) * s.entry_price then 1 else 0) = s.wins + 1 ↔ _
    rw [hpr]
    by_cases hp : 0 < (s.position : ℚ) * (today.close - s.entry_price) <;> simp [hp]
  · show s.wins + (if 0 < (s.position : ℚ) * today.close -
        (s.position : ℚ) * s.entry_price then 1 else 0) = s.wins ↔ _
    rw [hpr]
    by_cases hp : 0 < (s.position : ℚ) * (today.close - s.entry_price) <;> simp [hp]
  · show s.total_profit + ((s.position : ℚ) * today.close -
        (s.position : ℚ) * s.entry_price) = _
    rw [hpr]

/-- C7 witness: selling 2 shares bought at 5 on a sell-signal day closing
at 7 — the theorem applies and, in particular, the position returns to 0
and the trade count becomes 1. -/
theorem exit_fill_semantics_witness :
    (step { close := 6, k := 90, d := 85, ma60? := some 4, rsi? := some 50, hist? := some 0 }
       { close := 7, k := 85, d := 88, ma60? := some 4, rsi? := some 50, hist? := some 0 }
       { position := 2, entry_price := 5, cash := 0, trades := 0, wins := 0,
         total_profit := 0 }).trades = 0 + 1
    ∧ (step { close := 6, k := 90, d := 85, ma60? := some 4, rsi? := some 50, hist? := some 0 }
       { close := 7, k := 85, d := 88, ma60? := some 4, rsi? := some 50, hist? := some 0 }
       { position := 2, entry_price := 5, cash := 0, trades := 0, wins := 0,
         total_profit := 0 }).position = 0 :=
  ⟨(exit_fill_semantics _ _ _ (by decide) (by decide)).2.1,
   (exit_fill_semantics _ _ _ (by decide) (by decide)).2.2.2.2.2⟩

/-- C8: at the end of a run, the final account value is cash plus the
held shares marked at the last close, ROI is
`(final - START_FUNDS) / START_FUNDS * 100` exactly, and the win rate is
`wins / trades * 100` when at least one trade closed and exactly 0 when no
trade closed (no division is performed in that case). -/
theorem final_stats_formulas :
    ∀ (first : Row) (rest : List Row),
      finalValue first rest =
        (runSim first rest).cash +
          ((runSim first rest).position : ℚ) * lastClose first rest
      ∧ roi first rest = (finalValue first rest - START_FUNDS) / START_FUNDS * 100
      ∧ (0 < (runSim first rest).trades →
          winRate (runSim first rest) =
            ((runSim first rest).wins : ℚ) / ((runSim first rest).trades : ℚ) * 100)
      ∧ ((runSim first rest).trades = 0 → winRate (runSim first rest) = 0) := by
  intro first rest
  refine ⟨rfl, rfl, fun ht => ?_, fun ht => ?_⟩
  · rw [winRate, if_pos ht]
  · rw [winRate, if_neg (by rw [ht]; exact lt_irrefl 0)]

/-- C8 witness: a one-bar run closes no trade, so its win rate is 0. -/
theorem final_stats_formulas_witness :
    winRate (runSim { close := 5, k := 50, d := 50, ma60? := some 4, rsi? := some 50, hist? := some 0 } []) = 0 :=
  (final_stats_formulas { close := 5, k := 50, d := 50, ma60? := some 4, rsi? := some 50, hist? := some 0 } []).2.2.2 rfl

/-- C9: the Market Trend Filter returns Up exactly when the latest index
close strictly exceeds its defined 20-day SMA, and Down (whose rationale
carries both compared values) otherwise; with fewer than 20 bars, a
missing SMA column, a NaN SMA, or an exception, it fails open to Up with a
degraded rationale, and a degraded rationale is never one of the two
confirmed comparison rationales. -/
theorem market_trend_filter_correct :
    ∀ e : TrendEnv,
      (∀ m : ℚ, e.raises = false → e.dfEmpty = false → 20 ≤ e.dfLen →
        e.ma20col = some (some m) →
        ((e.close > m → check_market_trend e = (Trend.up, Rationale.strong e.close m))
         ∧ (¬ e.close > m → check_market_trend e = (Trend.down, Rationale.weak e.close m))))
      ∧ ((check_market_trend e).1 = Trend.down →
          ∃ m : ℚ, e.ma20col = some (some m)
            ∧ (check_market_trend e).2 = Rationale.weak e.close m ∧ e.close ≤ m)
      ∧ ((e.dfEmpty = true ∨ e.dfLen < 20) → e.raises = false →
          check_market_trend e = (Trend.up, Rationale.insufficient))
      ∧ (e.raises = false → e.dfEmpty = false → 20 ≤ e.dfLen → e.ma20col = none →
          check_market_trend e = (Trend.up, Rationale.maFailed))
      ∧ (e.raises = false → e.dfEmpty = false → 20 ≤ e.dfLen → e.ma20col = some none →
          check_market_trend e = (Trend.up, Rationale.maNaN))
      ∧ (e.raises = true → check_market_trend e = (Trend.up, Rationale.errored))
      ∧ (∀ p m : ℚ, Rationale.degraded (check_market_trend e).2 →
          (check_market_trend e).2 ≠ Rationale.strong p m
          ∧ (check_market_trend e).2 ≠ Rationale.weak p m) := by
  intro e
  refine ⟨?_, ?_, ?_, ?_, ?_, ?_, ?_⟩
  · intro m hr he hl hm
    constructor
    · intro hgt
      simp [check_market_trend, hr, he, Nat.not_lt.mpr hl, hm, hgt]
    · intro hgt
      simp [check_market_trend, hr, he, Nat.not_lt.mpr hl, hm, hgt]
  · intro hdown
    by_cases h1 : e.raises = true
    · simp [check_market_trend, h1] at hdown
    · by_cases h2 : e.dfEmpty = true ∨ e.dfLen < 20
      · simp [check_market_trend, h1, h2] at hdown
      · rcases hm : e.ma20col with _ | mm
        · simp [check_market_trend, h1, h2, hm] at hdown
        · rcases mm with _ | m
          · simp [check_market_trend, h1, h2, hm] at hdown
          · by_cases hgt : e.close > m
            · simp [check_market_trend, h1, h2, hm, hgt] at hdown
            · refine ⟨m, rfl, ?_, le_of_not_lt hgt⟩
              simp [check_market_trend, h1, h2, hm, hgt]
  · intro hins hr
    have : (e.dfEmpty = true ∨ e.dfLen < 20) = True := by simp [hins]
    simp [check_market_trend, hr, hins]
  · intro hr he hl hm
    simp [check_market_trend, hr, he, Nat.not_lt.mpr hl, hm]
  · intro hr he hl hm
    simp [check_market_trend, hr, he, Nat.not_lt.mpr hl, hm]
  · intro hr
    simp [check_market_trend, hr]
  · intro p m hdeg
    constructor
    · intro hc
      rw [hc] at hdeg
      simp [Rationale.degraded] at hdeg
    · intro hc
      rw [hc] at hdeg
      simp [Rationale.degraded] at hdeg

/-- C9 witness: a concrete index frame whose close 100 sits below its
20-day SMA 110 yields Down with the two compared values in the rationale,
and a concrete short frame yields the degraded fail-open Up. -/
theorem market_trend_filter_correct_witness :
    check_market_trend { raises := false, dfEmpty := false, dfLen := 40, ma20col := some (some 110), close := 100 } = (Trend.down, Rationale.weak 100 110)
    ∧ check_market_trend { raises := false, dfEmpty := false, dfLen := 10, ma20col := none, close := 100 } = (Trend.up, Rationale.insufficient) :=
  ⟨((market_trend_filter_correct _).1 110 rfl rfl (by decide) rfl).2 (by decide),
   (market_trend_filter_correct _).2.2.1 (Or.inr (by decide)) rfl⟩

/-- C10: the embedded `check_kd_signal` is a total function into 5-tuples
(the Python body is one `try` whose `except` returns the sentinel, so no
exception propagates); an exception, an empty download, fewer than 60
bars, and a failed or empty stochastic each return the sentinel
`(None, 0, 0, 0, 0.0)`; and that very tuple is also the output of a
normal, non-failing quiet day (`quietEnv`), so the sentinel does not
identify an error at this interface. -/
theorem check_kd_signal_total_sentinel :
    ∀ e : KDEnv,
      (e.raises = true → check_kd_signal e = (none, 0, 0, 0, 0))
      ∧ ((e.dfEmpty = true ∨ e.dfLen < 60) → check_kd_signal e = (none, 0, 0, 0, 0))
      ∧ (e.stoch? = none → check_kd_signal e = (none, 0, 0, 0, 0))
      ∧ (check_kd_signal quietEnv = (none, 0, 0, 0, 0)
         ∧ quietEnv.raises = false ∧ quietEnv.dfEmpty = false
         ∧ 60 ≤ quietEnv.dfLen ∧ quietEnv.stoch? ≠ none) := by
  intro e
  have hquiet : check_kd_signal quietEnv = (none, 0, 0, 0, 0) := by
    simp [check_kd_signal, quietEnv, zero_div]
  refine ⟨fun hr => by simp [check_kd_signal, hr], fun hg => ?_, fun hst => ?_,
    hquiet, rfl, rfl, by decide, by simp [quietEnv]⟩
  · by_cases hr : e.raises = true
    · simp [check_kd_signal, hr]
    · rw [Bool.not_eq_true] at hr
      simp [check_kd_signal, hr, hg]
  · by_cases hr : e.raises = true
    · simp [check_kd_signal, hr]
    · rw [Bool.not_eq_true] at hr
      by_cases hg : e.dfEmpty = true ∨ e.dfLen < 60
      · simp [check_kd_signal, hr, hg]
      · simp [check_kd_signal, hr, hg, hst]

/-- C10 witness: the sentinel on a concrete failing call (exception
raised), and the same tuple from the quiet-day path. -/
theorem check_kd_signal_total_sentinel_witness :
    check_kd_signal { raises := true, dfEmpty := false, dfLen := 130, stoch? := none, sma60? := none, rsi? := none, close := 100, hasVolume := false, volEmpty := false, volSma? := none, volToday := 0 } = (none, 0, 0, 0, 0)
    ∧ check_kd_signal quietEnv = (none, 0, 0, 0, 0) :=
  ⟨(check_kd_signal_total_sentinel _).1 rfl,
   (check_kd_signal_total_sentinel quietEnv).2.2.2.1⟩

/-- C3 witness: a concrete overbought dead-cross day with RSI 75 yields
Hold; with RSI 40 it yields Sell; a quiet day yields no signal. -/
theorem dead_cross_branch_correct_witness :
    liveSignal ⟨85, 88, 90, 86, 100, 50, 75, 0, 0⟩ = some Signal.hold
    ∧ liveSignal ⟨85, 88, 90, 86, 100, 50, 40, 0, 0⟩ = some Signal.sell
    ∧ liveSignal ⟨50, 50, 50, 50, 100, 50, 40, 0, 0⟩ = none := by
  refine ⟨((dead_cross_branch_correct ⟨85, 88, 90, 86, 100, 50, 75, 0, 0⟩).1
      (by decide) (by exact ⟨by decide, by decide⟩)).1 (by decide) |>.1, ?_, ?_⟩
  · exact (((dead_cross_branch_correct ⟨85, 88, 90, 86, 100, 50, 40, 0, 0⟩).1
      (by decide) ⟨by decide, by decide⟩).2 (by decide)).1
  · exact (dead_cross_branch_correct ⟨50, 50, 50, 50, 100, 50, 40, 0, 0⟩).2.1
      (by decide) (by decide)
